import Mathlib

/-!
Verification of the Chat-App repository's core: the in-memory directory
store (`MemStorage` in the storage module), the Socket.IO auth middleware
and event handlers (`routes.ts`), and the secondary websocket path
(`messages.ts`).  JavaScript `Map`s are embedded as insertion-ordered
association lists (`Map.set` replaces in place if the key is present,
otherwise appends; `Map.delete` removes; `values()` iterates in insertion
order), `Set`s as insertion-ordered duplicate-free lists, `Date`
timestamps as `Nat` ticks supplied by the caller, and the external
`scrypt` password hash as an abstract function parameter.
-/

namespace ChatApp

/-- A user record, mirroring the `User` shape of `@shared/schema` as
constructed in `MemStorage.createUser`. -/
structure User where
  id : Nat
  username : String
  password : String
  isAdmin : Bool
  status : String
  publicKey : Option String
  lastSeen : Nat
  deriving Repr, DecidableEq

/-- A message record, mirroring the `Message` shape as constructed in
`MemStorage.createMessage`. -/
structure Message where
  id : Nat
  senderId : Nat
  receiverId : Nat
  content : String
  timestamp : Nat
  deriving Repr, DecidableEq

/-- Insertion-ordered association list standing for a JavaScript `Map`. -/
abbrev AssocMap (α : Type) := List (Nat × α)

/-- Embeds `Map.get(k)`: first entry whose key equals `k`. -/
def mapGet {α : Type} (k : Nat) (m : AssocMap α) : Option α :=
  (m.find? (fun p => p.1 = k)).map (fun p => p.2)

/-- Embeds `Map.has(k)`. -/
def mapHas {α : Type} (k : Nat) (m : AssocMap α) : Bool :=
  m.any (fun p => p.1 = k)

/-- Embeds `Map.set(k, v)`: replace in place when the key is present, otherwise
append (JavaScript `Map` keeps the original insertion position). -/
def mapSet {α : Type} (k : Nat) (v : α) (m : AssocMap α) : AssocMap α :=
  if mapHas k m then m.map (fun p => if p.1 = k then (k, v) else p)
  else m ++ [(k, v)]

/-- Embeds `Map.delete(k)`. -/
def mapDelete {α : Type} (k : Nat) (m : AssocMap α) : AssocMap α :=
  m.filter (fun p => p.1 ≠ k)

/-- Embeds `Set.add(x)` on an insertion-ordered duplicate-free list. -/
def setAdd (x : Nat) (s : List Nat) : List Nat :=
  if x ∈ s then s else s ++ [x]

/-- Embeds `Set.delete(x)`. -/
def setDelete (x : Nat) (s : List Nat) : List Nat :=
  s.filter (fun y => y ≠ x)

/-- The mutable state of `MemStorage`: `users`, `messages` and `contacts`
maps plus the two id counters. -/
structure Store where
  users : AssocMap User
  messages : AssocMap Message
  contacts : AssocMap (List Nat)
  currentId : Nat
  currentMessageId : Nat
  deriving Repr, DecidableEq

/-- The store as built by the `MemStorage` constructor before the two
asynchronous seed `createUser` calls complete. -/
def emptyStore : Store :=
  { users := [], messages := [], contacts := [], currentId := 1, currentMessageId := 1 }

/-- Embeds `MemStorage.getUser(id)`. -/
def getUser (id : Nat) (st : Store) : Option User :=
  mapGet id st.users

/-- Embeds `MemStorage.getUserByUsername(username)`: linear scan over the values. -/
def getUserByUsername (username : String) (st : Store) : Option User :=
  ((st.users.map (fun p => p.2)).find? (fun u => u.username = username))

/-- Embeds `MemStorage.createUser(insertUser)`: assigns the next id, hashes the
password through the external `hash` function (scrypt with a random salt
in the source), stores the record and an empty contact set.  Note: the
source performs no duplicate-username check here. -/
def createUser (hash : String → String) (now : Nat) (username password : String)
    (st : Store) : User × Store :=
  let id := st.currentId
  let user : User :=
    { id := id, username := username, password := hash password,
      isAdmin := false, status := "offline", publicKey := none, lastSeen := now }
  (user,
   { st with
      currentId := id + 1,
      users := mapSet id user st.users,
      contacts := mapSet id [] st.contacts })

/-- Embeds `MemStorage.getAllUsers()`. -/
def getAllUsers (st : Store) : List User :=
  st.users.map (fun p => p.2)

/-- Embeds `MemStorage.updateUserStatus(id, status)`: throws "User not found" when
the id is absent, otherwise rewrites the record with the new status and a
fresh `lastSeen` timestamp. -/
def updateUserStatus (now : Nat) (id : Nat) (status : String) (st : Store) :
    Except String (User × Store) :=
  match getUser id st with
  | none => Except.error "User not found"
  | some user =>
    let updatedUser := { user with status := status, lastSeen := now }
    Except.ok (updatedUser, { st with users := mapSet id updatedUser st.users })

/-- Embeds `MemStorage.updateUserPublicKey(id, publicKey)`. -/
def updateUserPublicKey (id : Nat) (publicKey : String) (st : Store) :
    Except String (User × Store) :=
  match getUser id st with
  | none => Except.error "User not found"
  | some user =>
    let updatedUser := { user with publicKey := some publicKey }
    Except.ok (updatedUser, { st with users := mapSet id updatedUser st.users })

/-- Embeds `MemStorage.banUser(id)`: deletes the user record and its contact set,
then removes the id from every remaining contact set. -/
def banUser (id : Nat) (st : Store) : Store :=
  { st with
      users := mapDelete id st.users,
      contacts := (mapDelete id st.contacts).map (fun p => (p.1, setDelete id p.2)) }

/-- Embeds `MemStorage.getMessages(userId1, userId2)`: filters the message values
(in insertion order) to the pair, in either direction. -/
def getMessages (userId1 userId2 : Nat) (st : Store) : List Message :=
  (st.messages.map (fun p => p.2)).filter
    (fun msg =>
      (msg.senderId = userId1 && msg.receiverId = userId2) ||
      (msg.senderId = userId2 && msg.receiverId = userId1))

/-- Embeds `MemStorage.createMessage(message)`: assigns the next message id and
the server timestamp, stores the record. -/
def createMessage (now : Nat) (senderId receiverId : Nat) (content : String)
    (st : Store) : Message × Store :=
  let id := st.currentMessageId
  let newMessage : Message :=
    { id := id, senderId := senderId, receiverId := receiverId,
      content := content, timestamp := now }
  (newMessage,
   { st with
      currentMessageId := id + 1,
      messages := mapSet id newMessage st.messages })

/-- Embeds `MemStorage.deleteMessage(id)`. -/
def deleteMessage (id : Nat) (st : Store) : Store :=
  { st with messages := mapDelete id st.messages }

/-- Embeds `MemStorage.getContacts(userId)`: resolves the contact-id set through
the users map, silently dropping ids that no longer resolve. -/
def getContacts (userId : Nat) (st : Store) : List User :=
  ((mapGet userId st.contacts).getD []).filterMap (fun id => mapGet id st.users)

/-- Embeds `MemStorage.addContact(userId, contactId)`: creates the owner's set if
missing, then set-inserts the contact id. -/
def addContact (userId contactId : Nat) (st : Store) : Store :=
  let cs := if mapHas userId st.contacts then st.contacts else mapSet userId [] st.contacts
  { st with
      contacts := cs.map (fun p => if p.1 = userId then (p.1, setAdd contactId p.2) else p) }

/-! ## Socket.IO layer (`registerRoutes` in `routes.ts`) -/

/-- The parts of the Socket.IO handshake inspected by the auth middleware:
`socket.handshake.auth.token` and `socket.handshake.query.userId` (the
query value, when present and truthy, already converted by `Number`). -/
structure Handshake where
  authToken : String
  queryUserId : Option Nat
  deriving Repr, DecidableEq

/-- The `io.use` auth middleware: accepts exactly when the handshake's
auth token is the literal string "session" and a truthy `userId` query
parameter is present, binding `socket.data.userId` to that number.  No
session store is consulted: the decision depends on the handshake alone. -/
def authMiddleware (h : Handshake) : Except String Nat :=
  if h.authToken = "session" then
    match h.queryUserId with
    | some uid => Except.ok uid
    | none => Except.error "Authentication error"
  else Except.error "Authentication error"

/-- A connected socket: its id, the `socket.data.userId` bound by the auth
middleware, and the rooms it has joined. -/
structure Socket where
  sid : Nat
  dataUserId : Nat
  rooms : List String
  deriving Repr, DecidableEq

/-- The server state seen by the event handlers: the shared store and the
set of currently connected sockets. -/
structure ServerState where
  store : Store
  sockets : List Socket
  deriving Repr, DecidableEq

/-- The observable emissions of a handler: `socket.emit("error", ...)` to
one socket, `io.emit("user_status_changed", ...)` to everyone, and
`io.to(rooms).emit("new_message", ...)` to the members of the rooms. -/
inductive Emit where
  | toSocket (sid : Nat) (event : String) (message : String)
  | broadcastStatus (userId : Nat) (status : String)
  | newMessage (rooms : List String) (msg : Message)
  deriving Repr, DecidableEq

/-- The room name used for per-user delivery. -/
def userRoom (userId : Nat) : String :=
  "user_" ++ toString userId

def findSocket (sid : Nat) (sockets : List Socket) : Option Socket :=
  sockets.find? (fun s => s.sid = sid)

/-- Embeds `socket.join(room)` applied to socket `sid`. -/
def joinRoom (sid : Nat) (room : String) (sockets : List Socket) : List Socket :=
  sockets.map (fun s =>
    if s.sid = sid then { s with rooms := if room ∈ s.rooms then s.rooms else s.rooms ++ [room] }
    else s)

/-- The `join` event handler: rejects when the claimed userId differs from
the bound `socket.data.userId`; otherwise joins the user room, marks the
user online, and broadcasts the change.  A thrown `updateUserStatus` error
escapes the async handler: nothing further is emitted. -/
def joinHandler (now sid userId : Nat) (st : ServerState) : ServerState × List Emit :=
  match findSocket sid st.sockets with
  | none => (st, [])
  | some sock =>
    if userId ≠ sock.dataUserId then
      (st, [Emit.toSocket sid "error" "Invalid user ID"])
    else
      let sockets := joinRoom sid (userRoom userId) st.sockets
      match updateUserStatus now userId "online" st.store with
      | Except.error _ => ({ st with sockets := sockets }, [])
      | Except.ok (_, store) =>
        ({ store := store, sockets := sockets }, [Emit.broadcastStatus userId "online"])

/-- The `chat_message` handler with the persistence step abstracted: the
source wraps `storage.createMessage` in try/catch, so the handler is
stated over the outcome of that call.  On success the message is delivered
to the sender's and receiver's rooms; on a thrown error the catch block
emits "Failed to save message" to the originating socket only and the
store is left as it was. -/
def chatMessageHandlerWith (persist : Store → Except String (Message × Store))
    (sid senderId receiverId : Nat) (st : ServerState) :
    ServerState × List Emit :=
  match findSocket sid st.sockets with
  | none => (st, [])
  | some sock =>
    if senderId ≠ sock.dataUserId then
      (st, [Emit.toSocket sid "error" "Unauthorized message sender"])
    else
      match persist st.store with
      | Except.error _ => (st, [Emit.toSocket sid "error" "Failed to save message"])
      | Except.ok (savedMessage, store) =>
        ({ st with store := store },
         [Emit.newMessage [userRoom senderId, userRoom receiverId] savedMessage])

/-- The `chat_message` handler as in the source, where the persistence
step is `storage.createMessage` (which, on the in-memory store, succeeds). -/
def chatMessageHandler (now sid senderId receiverId : Nat) (content : String)
    (st : ServerState) : ServerState × List Emit :=
  chatMessageHandlerWith
    (fun s => Except.ok (createMessage now senderId receiverId content s))
    sid senderId receiverId st

/-- The `disconnect` handler: removes the socket; when the bound userId is
truthy (nonzero), marks the user offline and broadcasts the change,
regardless of any other connections the same user still holds. -/
def disconnectHandler (now sid : Nat) (st : ServerState) : ServerState × List Emit :=
  match findSocket sid st.sockets with
  | none => (st, [])
  | some sock =>
    let sockets := st.sockets.filter (fun s => s.sid ≠ sid)
    if sock.dataUserId ≠ 0 then
      match updateUserStatus now sock.dataUserId "offline" st.store with
      | Except.error _ => ({ st with sockets := sockets }, [])
      | Except.ok (_, store) =>
        ({ store := store, sockets := sockets },
         [Emit.broadcastStatus sock.dataUserId "offline"])
    else ({ st with sockets := sockets }, [])

/-- The HTTP `POST /api/register` route body after schema parsing: rejects
with 400 "Username already exists" when the username is taken, otherwise
creates the user and answers 201. -/
def registerHandler (hash : String → String) (now : Nat)
    (username password : String) (st : Store) : (Nat × String) × Store :=
  match getUserByUsername username st with
  | some _ => ((400, "Username already exists"), st)
  | none =>
    let (user, st2) := createUser hash now username password st
    ((201, user.username), st2)

/-! ## Secondary websocket path (`handleWebSocketMessage` in `messages.ts`) -/

/-- One character of the `/^[A-Za-z0-9+\x2f=]+$/` class. -/
def isCiphertextChar (c : Char) : Bool :=
  ('A' ≤ c && c ≤ 'Z') || ('a' ≤ c && c ≤ 'z') || ('0' ≤ c && c ≤ '9') ||
  c = '+' || c = '/' || c = '='

/-- Holds when `content.match` of the class regex is non-null: at least one
character, all from the class. -/
def matchesCiphertextFormat (s : String) : Bool :=
  !s.data.isEmpty && s.data.all isCiphertextChar

/-- A parsed inbound websocket chat payload. -/
structure WsChatMessage where
  type : String
  senderId : Nat
  receiverId : Nat
  content : String
  deriving Repr, DecidableEq

/-- Observable actions of the websocket path: `ws.send` of an error JSON
back to the caller, or `broadcast` of the persisted message. -/
inductive WsEmit where
  | sendError (message : String)
  | broadcastNewMessage (msg : Message)
  deriving Repr, DecidableEq

/-- Embeds `handleWebSocketMessage` after JSON parsing: on a "chat" event, checks
sender and receiver exist, then the loose encoded-ciphertext format, then
persists and broadcasts. -/
def handleWebSocketMessage (now : Nat) (data : WsChatMessage) (st : Store) :
    Store × List WsEmit :=
  if data.type = "chat" then
    match getUser data.senderId st, getUser data.receiverId st with
    | some _, some _ =>
      if !(matchesCiphertextFormat data.content) then
        (st, [WsEmit.sendError "Message must be encrypted"])
      else
        let (savedMessage, st2) :=
          createMessage now data.senderId data.receiverId data.content st
        (st2, [WsEmit.broadcastNewMessage savedMessage])
    | _, _ => (st, [WsEmit.sendError "Invalid sender or receiver"])
  else (st, [])

/-! ## Association-map lemmas -/

theorem find?_key_map_replace {α : Type} (k k' : Nat) (v : α) (m : AssocMap α) :
    (m.map (fun p => if p.1 = k then (k, v) else p)).find? (fun p => p.1 = k')
      = (m.find? (fun p => p.1 = k')).map (fun p => if p.1 = k then (k, v) else p) := by
  induction m with
  | nil => rfl
  | cons p m ih =>
    obtain ⟨a, b⟩ := p
    rw [List.map_cons]
    by_cases hak : a = k
    · subst hak
      by_cases hak' : a = k'
      · subst hak'
        rw [List.find?_cons_of_pos _ (by simp), List.find?_cons_of_pos _ (by simp)]
        simp
      · rw [List.find?_cons_of_neg _ (by simp [hak']),
            List.find?_cons_of_neg _ (by simp [hak']), ih]
    · by_cases hak' : a = k'
      · subst hak'
        rw [List.find?_cons_of_pos _ (by simp [hak]), List.find?_cons_of_pos _ (by simp)]
        simp [hak]
      · rw [List.find?_cons_of_neg _ (by simp [hak, hak']),
            List.find?_cons_of_neg _ (by simp [hak']), ih]

theorem mapHas_iff_find? {α : Type} (k : Nat) (m : AssocMap α) :
    mapHas k m = true ↔ ∃ q, m.find? (fun p => p.1 = k) = some q := by
  rw [mapHas, List.any_eq_true]
  constructor
  · rintro ⟨p, hmem, hp⟩
    have h1 : (m.find? (fun p => p.1 = k)).isSome = true := by
      rw [List.find?_isSome]; exact ⟨p, hmem, hp⟩
    rcases Option.isSome_iff_exists.mp h1 with ⟨q, hq⟩
    exact ⟨q, hq⟩
  · rintro ⟨q, hq⟩
    have h4 := List.find?_some hq
    exact ⟨q, List.mem_of_find?_eq_some hq, h4⟩

theorem mapGet_mapSet_self {α : Type} (k : Nat) (v : α) (m : AssocMap α) :
    mapGet k (mapSet k v m) = some v := by
  unfold mapSet
  by_cases h : mapHas k m = true
  · rcases (mapHas_iff_find? k m).mp h with ⟨q, hq⟩
    have hqk : q.1 = k := by
      have h2 := List.find?_some hq
      simpa using h2
    rw [if_pos h]
    rw [mapGet, find?_key_map_replace, hq]
    simp [hqk]
  · have hnone : m.find? (fun p => p.1 = k) = none := by
      rcases Option.eq_none_or_eq_some (m.find? (fun p => p.1 = k)) with h0 | ⟨q, hq⟩
      · exact h0
      · exact absurd ((mapHas_iff_find? k m).mpr ⟨q, hq⟩) h
    rw [if_neg h, mapGet, List.find?_append, hnone]
    simp

theorem mapGet_mapSet_ne {α : Type} (k k' : Nat) (v : α) (m : AssocMap α)
    (hne : k' ≠ k) : mapGet k' (mapSet k v m) = mapGet k' m := by
  unfold mapSet
  by_cases h : mapHas k m = true
  · rw [if_pos h, mapGet, find?_key_map_replace, mapGet]
    rcases Option.eq_none_or_eq_some (m.find? (fun p => p.1 = k')) with h0 | ⟨q, hq⟩
    · rw [h0]; rfl
    · have hqk : q.1 = k' := by
        have := List.find?_some hq
        simpa using this
      have hqnek : ¬ q.1 = k := fun hh => hne (hqk ▸ hh ▸ rfl)
      rw [hq]
      simp [hqnek]
  · rw [if_neg h, mapGet, List.find?_append, mapGet]
    have h2 : List.find? (fun p => p.1 = k') [(k, v)] = none := by
      simp [List.find?_cons, Ne.symm hne]
    rw [h2]
    rcases Option.eq_none_or_eq_some (m.find? (fun p => p.1 = k')) with h0 | ⟨q, hq⟩
    · rw [h0]; rfl
    · rw [hq]; rfl

theorem mapGet_mapDelete_self {α : Type} (k : Nat) (m : AssocMap α) :
    mapGet k (mapDelete k m) = none := by
  have hnone : (mapDelete k m).find? (fun p => p.1 = k) = none := by
    rw [List.find?_eq_none]
    intro p hp
    have hmem := List.of_mem_filter hp
    simp only [decide_eq_true_eq] at hmem
    simp [hmem]
  rw [mapGet, hnone]
  rfl

theorem mapGet_mapDelete_ne {α : Type} (k k' : Nat) (m : AssocMap α)
    (hne : k' ≠ k) : mapGet k' (mapDelete k m) = mapGet k' m := by
  unfold mapGet mapDelete
  induction m with
  | nil => rfl
  | cons p m ih =>
    obtain ⟨a, b⟩ := p
    by_cases hak : a = k
    · subst hak
      rw [List.filter_cons_of_neg (by simp),
          List.find?_cons_of_neg _ (by simpa using Ne.symm hne)]
      exact ih
    · by_cases hak' : a = k'
      · rw [List.filter_cons_of_pos (by simp [hak]),
            List.find?_cons_of_pos _ (by simp [hak']),
            List.find?_cons_of_pos _ (by simp [hak'])]
      · rw [List.filter_cons_of_pos (by simp [hak]),
            List.find?_cons_of_neg _ (by simp [hak']),
            List.find?_cons_of_neg _ (by simp [hak'])]
        exact ih

/-! ## Concrete fixtures used by the closed theorems -/

/-- A user with id 42, used as the impersonation target in the C1 scenario. -/
def c1User : User :=
  { id := 42, username := "victim", password := "h", isAdmin := false,
    status := "offline", publicKey := none, lastSeen := 0 }

/-- Server state for the C1 scenario: user 42 exists; socket 1 was bound to
userId 42 by the middleware although no login session for user 42 exists. -/
def c1State : ServerState :=
  { store :=
      { users := [(42, c1User)], messages := [], contacts := [(42, [])],
        currentId := 43, currentMessageId := 1 },
    sockets := [{ sid := 1, dataUserId := 42, rooms := [] }] }

/-- Store for the C3 scenario: one user, id 1, currently online. -/
def c3Store : Store :=
  { users := [(1, { id := 1, username := "u1", password := "h", isAdmin := false,
                    status := "online", publicKey := none, lastSeen := 0 })],
    messages := [], contacts := [(1, [])], currentId := 2, currentMessageId := 1 }

/-- Server state for the C3 scenario: user 1 holds two active connections
(sids 1 and 2), both joined to the user room. -/
def c3State : ServerState :=
  { store := c3Store,
    sockets := [{ sid := 1, dataUserId := 1, rooms := ["user_1"] },
                { sid := 2, dataUserId := 1, rooms := ["user_1"] }] }

/-- Identity stands in for the external scrypt hash in concrete scenarios. -/
def plainHash : String → String := fun s => s

/-- Store for the C4 scenario: exactly one user, named "alice". -/
def c4Store : Store :=
  (createUser plainHash 0 "alice" "pw" emptyStore).2

/-! ## Claim theorems -/

/-- C1: the claim says the claimed userId supplied at handshake time is
re-verified against the session-resolved identity before any join is
honored.  The code does not do this: `authMiddleware` takes only the
handshake (its type shows no session input), accepts any handshake whose
auth token is the constant string "session", binds the connection to the
claimed userId, and the subsequent join for that userId is honored — here
a connection that never authenticated as user 42 joins as user 42 and is
announced online. -/
theorem C1_handshake_userId_trusted_without_session_check :
    authMiddleware { authToken := "session", queryUserId := some 42 } = Except.ok 42 ∧
    (joinHandler 5 1 42 c1State).2 = [Emit.broadcastStatus 42 "online"] := by
  constructor
  · rfl
  · decide

/-- C2: an inbound `chat_message` whose declared senderId differs from the
connection's bound userId is answered with an "Unauthorized message
sender" error on that connection only, and the server state — in
particular the message store — is unchanged. -/
theorem C2_spoofed_sender_rejected
    (now sid senderId receiverId : Nat) (content : String)
    (st : ServerState) (sock : Socket)
    (hs : findSocket sid st.sockets = some sock)
    (hne : senderId ≠ sock.dataUserId) :
    chatMessageHandler now sid senderId receiverId content st
      = (st, [Emit.toSocket sid "error" "Unauthorized message sender"]) := by
  unfold chatMessageHandler chatMessageHandlerWith
  rw [hs]
  simp [hne]

/-- Witness for C2 at a concrete input: socket 1 is bound to user 5 and
declares senderId 7. -/
theorem C2_spoofed_sender_rejected_witness :
    chatMessageHandler 0 1 7 2 "hi"
        { store := emptyStore, sockets := [{ sid := 1, dataUserId := 5, rooms := [] }] }
      = ({ store := emptyStore, sockets := [{ sid := 1, dataUserId := 5, rooms := [] }] },
         [Emit.toSocket 1 "error" "Unauthorized message sender"]) :=
  C2_spoofed_sender_rejected 0 1 7 2 "hi"
    { store := emptyStore, sockets := [{ sid := 1, dataUserId := 5, rooms := [] }] }
    { sid := 1, dataUserId := 5, rooms := [] } (by decide) (by decide)

/-- C3: the claim says the status goes OFFLINE only when the last active
connection terminates, so with two active connections one disconnect must
leave the user online.  The code keeps no per-user connection count: the
disconnect handler marks the user offline unconditionally.  Here user 1
holds sockets 1 and 2; after socket 1 disconnects, socket 2 is still an
active connection bound to user 1, yet the stored status is "offline" and
an offline status change is broadcast. -/
theorem C3_disconnect_ignores_remaining_connections :
    ((disconnectHandler 7 1 c3State).1.sockets.any (fun s => s.dataUserId = 1)) = true ∧
    (getUser 1 (disconnectHandler 7 1 c3State).1.store).map (fun u => u.status)
      = some "offline" ∧
    (disconnectHandler 7 1 c3State).2 = [Emit.broadcastStatus 1 "offline"] := by
  decide

/-- C4 counterexample: the claim says the store operation `createUser`
fails with a duplicate-username error when the username is already
present.  The store operation performs no such check: from a store already
holding "alice", `createUser` with username "alice" succeeds and the store
then holds two records with that username. -/
theorem C4_createUser_allows_duplicate_username :
    ((getAllUsers (createUser plainHash 1 "alice" "pw2" c4Store).2).filter
        (fun u => u.username = "alice")).length = 2 := by
  decide

/-- C4 amended: the duplicate-username rejection lives in the HTTP
register route, not in the store operation: when a user with the requested
username already exists, `registerHandler` answers 400 "Username already
exists" and leaves the store unchanged, so no second record with that
username is added; the store operation `createUser` itself never checks. -/
theorem C4_register_rejects_duplicate_username
    (hash : String → String) (now : Nat) (username password : String)
    (st : Store) (u : User)
    (h : getUserByUsername username st = some u) :
    registerHandler hash now username password st
      = ((400, "Username already exists"), st) := by
  unfold registerHandler
  rw [h]

/-- Witness for the amended C4 at a concrete input: registering "alice"
again against the store that already holds "alice". -/
theorem C4_register_rejects_duplicate_username_witness :
    registerHandler plainHash 1 "alice" "pw2" c4Store
      = ((400, "Username already exists"), c4Store) :=
  C4_register_rejects_duplicate_username plainHash 1 "alice" "pw2" c4Store
    { id := 1, username := "alice", password := "pw", isAdmin := false,
      status := "offline", publicKey := none, lastSeen := 0 }
    (by decide)

/-- C6: when the persistence step of the `chat_message` handler fails, the
catch block reports "Failed to save message" to the originating connection
only; no `new_message` is emitted to anyone and the server state — in
particular the message store — is unchanged. -/
theorem C6_persistence_failure_no_delivery
    (persist : Store → Except String (Message × Store))
    (sid senderId receiverId : Nat) (st : ServerState) (sock : Socket) (e : String)
    (hs : findSocket sid st.sockets = some sock)
    (hbound : senderId = sock.dataUserId)
    (hfail : persist st.store = Except.error e) :
    chatMessageHandlerWith persist sid senderId receiverId st
      = (st, [Emit.toSocket sid "error" "Failed to save message"]) := by
  unfold chatMessageHandlerWith
  rw [hs]
  simp [hbound, hfail]

/-- Witness for C6 at a concrete input: a persistence step that always
throws, on a connection bound to user 5 sending as user 5. -/
theorem C6_persistence_failure_no_delivery_witness :
    chatMessageHandlerWith (fun _ => Except.error "boom") 1 5 2
        { store := emptyStore, sockets := [{ sid := 1, dataUserId := 5, rooms := [] }] }
      = ({ store := emptyStore, sockets := [{ sid := 1, dataUserId := 5, rooms := [] }] },
         [Emit.toSocket 1 "error" "Failed to save message"]) :=
  C6_persistence_failure_no_delivery (fun _ => Except.error "boom") 1 5 2
    { store := emptyStore, sockets := [{ sid := 1, dataUserId := 5, rooms := [] }] }
    { sid := 1, dataUserId := 5, rooms := [] } "boom" (by decide) (by decide) rfl

/-- C9: `getMessages` is symmetric in its two user-id arguments on every
store, because its filter accepts the pair in either direction. -/
theorem C9_getMessages_symmetric (A B : Nat) (st : Store) :
    getMessages A B st = getMessages B A st := by
  unfold getMessages
  apply List.filter_congr
  intro msg _
  exact Bool.or_comm _ _

/-- Store for the C8 scenario: users 1 and 2 exist. -/
def c8Store : Store :=
  { users :=
      [(1, { id := 1, username := "u1", password := "h", isAdmin := false,
             status := "offline", publicKey := none, lastSeen := 0 }),
       (2, { id := 2, username := "u2", password := "h", isAdmin := false,
             status := "offline", publicKey := none, lastSeen := 0 })],
    messages := [], contacts := [], currentId := 3, currentMessageId := 1 }

/-- C8: content is validated only in the secondary websocket path.  On a
"chat" event between existing users whose content fails the loose
encoded-ciphertext format, `handleWebSocketMessage` answers "Message must
be encrypted" and leaves the store untouched; the primary socket
`chat_message` path persists a message for any content string whatsoever
(no format check appears between the sender check and `createMessage`). -/
theorem C8_content_validated_only_in_ws_path
    (now : Nat) (data : WsChatMessage) (st : Store)
    (now2 sid receiverId : Nat) (content : String) (srv : ServerState) (sock : Socket)
    (htype : data.type = "chat")
    (hsender : (getUser data.senderId st).isSome = true)
    (hreceiver : (getUser data.receiverId st).isSome = true)
    (hbad : matchesCiphertextFormat data.content = false)
    (hs : findSocket sid srv.sockets = some sock) :
    handleWebSocketMessage now data st
      = (st, [WsEmit.sendError "Message must be encrypted"]) ∧
    (chatMessageHandler now2 sid sock.dataUserId receiverId content srv).1.store.messages
      = mapSet srv.store.currentMessageId
          { id := srv.store.currentMessageId, senderId := sock.dataUserId,
            receiverId := receiverId, content := content, timestamp := now2 }
          srv.store.messages := by
  constructor
  · unfold handleWebSocketMessage
    rw [htype]
    rcases Option.isSome_iff_exists.mp hsender with ⟨u1, hu1⟩
    rcases Option.isSome_iff_exists.mp hreceiver with ⟨u2, hu2⟩
    simp [hu1, hu2, hbad]
  · unfold chatMessageHandler chatMessageHandlerWith
    rw [hs]
    simp [createMessage]

/-- Witness for C8 at concrete inputs: "hello world" fails the format
check (it holds a space) and is rejected on the websocket path, while the
same string is happily persisted by the primary socket path. -/
theorem C8_content_validated_only_in_ws_path_witness :
    handleWebSocketMessage 3 { type := "chat", senderId := 1, receiverId := 2,
                               content := "hello world" } c8Store
      = (c8Store, [WsEmit.sendError "Message must be encrypted"]) ∧
    (chatMessageHandler 9 1 5 2 "hello world"
        { store := emptyStore,
          sockets := [{ sid := 1, dataUserId := 5, rooms := [] }] }).1.store.messages
      = mapSet 1 { id := 1, senderId := 5, receiverId := 2,
                   content := "hello world", timestamp := 9 } [] :=
  C8_content_validated_only_in_ws_path 3
    { type := "chat", senderId := 1, receiverId := 2, content := "hello world" }
    c8Store 9 1 2 "hello world"
    { store := emptyStore, sockets := [{ sid := 1, dataUserId := 5, rooms := [] }] }
    { sid := 1, dataUserId := 5, rooms := [] }
    rfl (by decide) (by decide) (by decide) (by decide)

/-- The pre-update record of user 1 in `c8Store`. -/
def c10OldUser : User :=
  { id := 1, username := "u1", password := "h", isAdmin := false,
    status := "offline", publicKey := none, lastSeen := 0 }

/-- The record rewrite performed by `updateUserStatus`: copy the user and
replace exactly the status and lastSeen fields. -/
def withStatus (user : User) (status : String) (now : Nat) : User :=
  { user with status := status, lastSeen := now }

/-- C10: for an existing user, `updateUserStatus` rewrites exactly that
user's record with the new status and a fresh `lastSeen`, keeping the
record's id, username, password, isAdmin flag and publicKey, replaces only
that entry of the users map, and leaves every other user's record, the
contact map, the message map and both id counters unchanged. -/
theorem C10_updateUserStatus_frame
    (now id : Nat) (status : String) (st : Store) (user : User)
    (h : getUser id st = some user) :
    updateUserStatus now id status st
      = Except.ok (withStatus user status now,
          { st with users := mapSet id (withStatus user status now) st.users }) ∧
    (withStatus user status now).id = user.id ∧
    (withStatus user status now).username = user.username ∧
    (withStatus user status now).password = user.password ∧
    (withStatus user status now).isAdmin = user.isAdmin ∧
    (withStatus user status now).publicKey = user.publicKey ∧
    (withStatus user status now).status = status ∧
    (withStatus user status now).lastSeen = now ∧
    getUser id { st with users := mapSet id (withStatus user status now) st.users }
      = some (withStatus user status now) ∧
    (∀ k, k ≠ id →
      getUser k { st with users := mapSet id (withStatus user status now) st.users }
        = getUser k st) := by
  refine ⟨?_, rfl, rfl, rfl, rfl, rfl, rfl, rfl, ?_, ?_⟩
  · unfold updateUserStatus withStatus
    rw [h]
  · exact mapGet_mapSet_self id _ st.users
  · intro k hk
    exact mapGet_mapSet_ne id k _ st.users hk

/-- Witness for C10 at a concrete input: updating user 1's status in the
two-user store changes only that record's status and lastSeen. -/
theorem C10_updateUserStatus_frame_witness :
    updateUserStatus 5 1 "online" c8Store
      = Except.ok (withStatus c10OldUser "online" 5,
          { c8Store with users := mapSet 1 (withStatus c10OldUser "online" 5) c8Store.users }) ∧
    (withStatus c10OldUser "online" 5).id = c10OldUser.id ∧
    (withStatus c10OldUser "online" 5).username = c10OldUser.username ∧
    (withStatus c10OldUser "online" 5).password = c10OldUser.password ∧
    (withStatus c10OldUser "online" 5).isAdmin = c10OldUser.isAdmin ∧
    (withStatus c10OldUser "online" 5).publicKey = c10OldUser.publicKey ∧
    (withStatus c10OldUser "online" 5).status = "online" ∧
    (withStatus c10OldUser "online" 5).lastSeen = 5 ∧
    getUser 1 { c8Store with users := mapSet 1 (withStatus c10OldUser "online" 5) c8Store.users }
      = some (withStatus c10OldUser "online" 5) ∧
    (∀ k, k ≠ 1 →
      getUser k { c8Store with users := mapSet 1 (withStatus c10OldUser "online" 5) c8Store.users }
        = getUser k c8Store) :=
  C10_updateUserStatus_frame 5 1 "online" c8Store c10OldUser (by decide)

/-- Filtering twice with the same predicate is the same as filtering once. -/
theorem filter_idem {α : Type} (p : α → Bool) (l : List α) :
    (l.filter p).filter p = l.filter p := by
  induction l with
  | nil => rfl
  | cons a l ih =>
    by_cases h : p a <;> simp [List.filter_cons, h, ih]

/-- A successful map lookup comes from an entry with that key. -/
theorem mapGet_eq_some_mem {α : Type} (k : Nat) (m : AssocMap α) (v : α)
    (h : mapGet k m = some v) : ∃ p ∈ m, p.1 = k ∧ p.2 = v := by
  unfold mapGet at h
  cases hf : m.find? (fun p => p.1 = k) with
  | none => rw [hf] at h; cases h
  | some q =>
    rw [hf] at h
    have hq1 := List.find?_some hf
    refine ⟨q, List.mem_of_find?_eq_some hf, by simpa using hq1, by simpa using h⟩

/-- Deleting a key commutes with a value-only rewrite of the entries. -/
theorem mapDelete_map_keyfix {α β : Type} (k : Nat) (f : Nat × α → Nat × β)
    (hf : ∀ p, (f p).1 = p.1) (l : AssocMap α) :
    mapDelete k (l.map f) = (mapDelete k l).map f := by
  unfold mapDelete
  rw [List.filter_map]
  congr 1
  apply List.filter_congr
  intro p _
  simp [Function.comp, hf p]

/-- Removing an element from a set twice equals removing it once. -/
theorem setDelete_idem (x : Nat) (s : List Nat) :
    setDelete x (setDelete x s) = setDelete x s :=
  filter_idem _ s

/-- Well-formedness of the users map: each entry's record carries the
entry's key as its id — true of every store the code builds, since
`createUser` stores each record under its own id. -/
def usersWF (st : Store) : Prop :=
  ∀ p ∈ st.users, (Prod.snd p).id = p.1

/-- Store for the C7 witness: users 1 and 2, each in the other's contacts. -/
def c7Store : Store :=
  { users :=
      [(1, { id := 1, username := "u1", password := "h", isAdmin := false,
             status := "offline", publicKey := none, lastSeen := 0 }),
       (2, { id := 2, username := "u2", password := "h", isAdmin := false,
             status := "offline", publicKey := none, lastSeen := 0 })],
    messages := [], contacts := [(1, [2]), (2, [1])],
    currentId := 3, currentMessageId := 1 }

/-- C7: `banUser` deletes the banned user's record and removes the id from
every remaining contact set, so that `getContacts` on any user never
afterwards returns a user with the banned id (in a well-formed store); and
a second `banUser` on the same id leaves the store exactly as the first
left it — a no-op, not an error. -/
theorem C7_banUser_purges_and_idempotent (st : Store) (bid uid : Nat)
    (hwf : usersWF st) :
    getUser bid (banUser bid st) = none ∧
    (∀ u ∈ getContacts uid (banUser bid st), u.id ≠ bid) ∧
    banUser bid (banUser bid st) = banUser bid st := by
  refine ⟨mapGet_mapDelete_self bid st.users, ?_, ?_⟩
  · intro u hu
    unfold getContacts at hu
    rcases List.mem_filterMap.mp hu with ⟨cid, _, hget⟩
    rcases mapGet_eq_some_mem cid _ u hget with ⟨p, hpmem, _, hpv⟩
    have hmem2 := List.mem_filter.mp hpmem
    have hid : u.id = p.1 := by rw [← hpv]; exact hwf p hmem2.1
    have hne : ¬ p.1 = bid := by simpa using hmem2.2
    intro hbid
    exact hne (hid ▸ hbid)
  · cases st with
    | mk users messages contacts currentId currentMessageId =>
      simp only [banUser]
      congr 1
      · exact filter_idem _ users
      · rw [mapDelete_map_keyfix bid (fun p => (p.1, setDelete bid p.2)) (fun p => rfl)
              (mapDelete bid contacts)]
        rw [show mapDelete bid (mapDelete bid contacts) = mapDelete bid contacts from
              filter_idem _ contacts]
        rw [List.map_map]
        apply List.map_congr_left
        intro p _
        show (p.1, setDelete bid (setDelete bid p.2)) = (p.1, setDelete bid p.2)
        rw [setDelete_idem]

/-- Witness for C7 at a concrete input: banning user 2 from the two-user
store where user 1 has user 2 as a contact. -/
theorem C7_banUser_purges_and_idempotent_witness :
    getUser 2 (banUser 2 c7Store) = none ∧
    (∀ u ∈ getContacts 1 (banUser 2 c7Store), u.id ≠ 2) ∧
    banUser 2 (banUser 2 c7Store) = banUser 2 c7Store :=
  C7_banUser_purges_and_idempotent c7Store 2 1 (by unfold usersWF; decide)

/-! ## Round-trip development for `createMessage` / `getMessages` -/

/-- One `createMessage` call: its wall-clock tick and the inserted fields. -/
structure CreateCall where
  now : Nat
  senderId : Nat
  receiverId : Nat
  content : String
  deriving Repr, DecidableEq

/-- Applies one `createMessage` call to the store, keeping the new state. -/
def applyCreate (st : Store) (c : CreateCall) : Store :=
  (createMessage c.now c.senderId c.receiverId c.content st).2

/-- Runs a sequence of `createMessage` calls left to right. -/
def runCreates (st : Store) (calls : List CreateCall) : Store :=
  calls.foldl applyCreate st

/-- Whether a call's sender/receiver pair is exactly the unordered pair
A-B (either direction), matching the `getMessages` filter. -/
def callMatches (A B : Nat) (c : CreateCall) : Bool :=
  (c.senderId = A && c.receiverId = B) || (c.senderId = B && c.receiverId = A)

/-- The message record `createMessage` builds for a call when the next
message id is `nextId`. -/
def builtMessage (nextId : Nat) (c : CreateCall) : Message :=
  { id := nextId, senderId := c.senderId, receiverId := c.receiverId,
    content := c.content, timestamp := c.now }

/-- The map entries appended by a call sequence starting from `nextId`. -/
def createdEntries (nextId : Nat) : List CreateCall → List (Nat × Message)
  | [] => []
  | c :: cs => (nextId, builtMessage nextId c) :: createdEntries (nextId + 1) cs

/-- Freshness of the message-id counter: every stored message key is below
it (holds in every reachable store; trivially in one with no messages). -/
def msgIdsBelow (st : Store) : Prop :=
  ∀ p ∈ st.messages, p.1 < st.currentMessageId

theorem mapHas_eq_false {α : Type} (k : Nat) (m : AssocMap α)
    (h : ∀ p ∈ m, p.1 ≠ k) : mapHas k m = false := by
  unfold mapHas
  rw [List.any_eq_false]
  intro p hp
  simpa using h p hp

theorem applyCreate_messages (st : Store) (c : CreateCall) (h : msgIdsBelow st) :
    (applyCreate st c).messages
      = st.messages ++ [(st.currentMessageId, builtMessage st.currentMessageId c)] ∧
    (applyCreate st c).currentMessageId = st.currentMessageId + 1 ∧
    msgIdsBelow (applyCreate st c) := by
  have hfresh : mapHas st.currentMessageId st.messages = false :=
    mapHas_eq_false _ _ (fun p hp => Nat.ne_of_lt (h p hp))
  have hmsgs : (applyCreate st c).messages
      = st.messages ++ [(st.currentMessageId, builtMessage st.currentMessageId c)] := by
    show mapSet st.currentMessageId _ st.messages = _
    unfold mapSet
    rw [hfresh]
    simp [builtMessage]
  refine ⟨hmsgs, rfl, ?_⟩
  intro p hp
  rw [hmsgs] at hp
  rcases List.mem_append.mp hp with hp1 | hp2
  · show p.1 < st.currentMessageId + 1
    exact Nat.lt_succ_of_lt (h p hp1)
  · rcases List.mem_singleton.mp hp2 with rfl
    exact Nat.lt_succ_self _

theorem runCreates_messages (calls : List CreateCall) (st : Store)
    (h : msgIdsBelow st) :
    (runCreates st calls).messages
      = st.messages ++ createdEntries st.currentMessageId calls := by
  induction calls generalizing st with
  | nil => simp [runCreates, createdEntries]
  | cons c cs ih =>
    have h1 := applyCreate_messages st c h
    show (runCreates (applyCreate st c) cs).messages = _
    rw [ih (applyCreate st c) h1.2.2, h1.1, h1.2.1]
    simp [createdEntries]

theorem createdEntries_filter_map (A B nextId : Nat) (calls : List CreateCall) :
    ((((createdEntries nextId calls).map (fun p => p.2)).filter
        (fun msg =>
          (msg.senderId = A && msg.receiverId = B) ||
          (msg.senderId = B && msg.receiverId = A))).map
      (fun m => (m.senderId, m.receiverId, m.content, m.timestamp)))
    = (calls.filter (callMatches A B)).map
        (fun c => (c.senderId, c.receiverId, c.content, c.now)) := by
  induction calls generalizing nextId with
  | nil => rfl
  | cons c cs ih =>
    simp only [createdEntries, List.map_cons, List.filter_cons]
    have hcond :
        (decide ((builtMessage nextId c).senderId = A) &&
            decide ((builtMessage nextId c).receiverId = B) ||
          decide ((builtMessage nextId c).senderId = B) &&
            decide ((builtMessage nextId c).receiverId = A))
          = callMatches A B c := rfl
    rw [hcond]
    cases hc : callMatches A B c
    · rw [if_neg (by simp), if_neg (by simp)]
      exact ih (nextId + 1)
    · rw [if_pos rfl, if_pos rfl]
      simp only [List.map_cons]
      rw [ih (nextId + 1)]
      rfl

theorem createdEntries_ids_ge (nextId : Nat) (calls : List CreateCall) :
    ∀ m ∈ (createdEntries nextId calls).map (fun p => p.2), nextId ≤ m.id := by
  induction calls generalizing nextId with
  | nil => intro m hm; cases hm
  | cons c cs ih =>
    intro m hm
    simp only [createdEntries, List.map_cons, List.mem_cons] at hm
    rcases hm with rfl | hm
    · exact Nat.le_refl _
    · exact Nat.le_trans (Nat.le_succ nextId) (ih (nextId + 1) m hm)

theorem createdEntries_pairwise_ids (nextId : Nat) (calls : List CreateCall) :
    List.Pairwise (fun m1 m2 : Message => m1.id < m2.id)
      ((createdEntries nextId calls).map (fun p => p.2)) := by
  induction calls generalizing nextId with
  | nil => exact List.Pairwise.nil
  | cons c cs ih =>
    simp only [createdEntries, List.map_cons]
    refine List.Pairwise.cons ?_ (ih (nextId + 1))
    intro m hm
    exact Nat.lt_of_lt_of_le (Nat.lt_succ_self nextId) (createdEntries_ids_ge (nextId + 1) cs m hm)

theorem createdEntries_mem_timestamp (nextId : Nat) (calls : List CreateCall) :
    ∀ m ∈ (createdEntries nextId calls).map (fun p => p.2),
      ∃ c ∈ calls, m.timestamp = c.now := by
  induction calls generalizing nextId with
  | nil => intro m hm; cases hm
  | cons c cs ih =>
    intro m hm
    simp only [createdEntries, List.map_cons, List.mem_cons] at hm
    rcases hm with rfl | hm
    · exact ⟨c, List.mem_cons_self c cs, rfl⟩
    · rcases ih (nextId + 1) m hm with ⟨c2, hc2, hts⟩
      exact ⟨c2, List.mem_cons_of_mem c hc2, hts⟩

theorem createdEntries_pairwise_ts (nextId : Nat) (calls : List CreateCall)
    (h : List.Pairwise (fun c1 c2 : CreateCall => c1.now ≤ c2.now) calls) :
    List.Pairwise (fun m1 m2 : Message => m1.timestamp ≤ m2.timestamp)
      ((createdEntries nextId calls).map (fun p => p.2)) := by
  induction calls generalizing nextId with
  | nil => exact List.Pairwise.nil
  | cons c cs ih =>
    rcases List.pairwise_cons.mp h with ⟨hc, hcs⟩
    simp only [createdEntries, List.map_cons]
    refine List.Pairwise.cons ?_ (ih (nextId + 1) hcs)
    intro m hm
    rcases createdEntries_mem_timestamp (nextId + 1) cs m hm with ⟨c2, hc2, hts⟩
    show c.now ≤ m.timestamp
    rw [hts]
    exact hc c2 hc2

/-- C5: starting from a store with no messages, after any sequence of
`createMessage` calls, `getMessages A B` returns exactly the messages of
the calls whose pair is A-B in either direction — same sender, receiver,
content and timestamp, in call order, none missing and no others — with
strictly ascending message ids (the creation order), and, whenever the
server clock ticks monotonically across the calls, nondecreasing creation
timestamps. -/
theorem C5_getMessages_roundtrip (A B : Nat) (calls : List CreateCall) (st : Store)
    (h0 : st.messages = []) :
    ((getMessages A B (runCreates st calls)).map
        (fun m => (m.senderId, m.receiverId, m.content, m.timestamp))
      = (calls.filter (callMatches A B)).map
        (fun c => (c.senderId, c.receiverId, c.content, c.now))) ∧
    List.Pairwise (fun m1 m2 : Message => m1.id < m2.id)
      (getMessages A B (runCreates st calls)) ∧
    (List.Pairwise (fun c1 c2 : CreateCall => c1.now ≤ c2.now) calls →
      List.Pairwise (fun m1 m2 : Message => m1.timestamp ≤ m2.timestamp)
        (getMessages A B (runCreates st calls))) := by
  have hbelow : msgIdsBelow st := by
    intro p hp
    rw [h0] at hp
    cases hp
  have hmsgs := runCreates_messages calls st hbelow
  rw [h0, List.nil_append] at hmsgs
  refine ⟨?_, ?_, ?_⟩
  · unfold getMessages
    rw [hmsgs]
    exact createdEntries_filter_map A B st.currentMessageId calls
  · unfold getMessages
    rw [hmsgs]
    exact List.Pairwise.sublist (List.filter_sublist _)
      (createdEntries_pairwise_ids st.currentMessageId calls)
  · intro hmono
    unfold getMessages
    rw [hmsgs]
    exact List.Pairwise.sublist (List.filter_sublist _)
      (createdEntries_pairwise_ts st.currentMessageId calls hmono)

/-- The interleaved call sequence used by the C5 witness: three messages
between users 1 and 2 (one of them reversed) interleaved with traffic
involving user 3. -/
def c5Calls : List CreateCall :=
  [{ now := 10, senderId := 1, receiverId := 2, content := "a" },
   { now := 11, senderId := 3, receiverId := 1, content := "x" },
   { now := 12, senderId := 2, receiverId := 1, content := "b" },
   { now := 13, senderId := 2, receiverId := 3, content := "y" },
   { now := 14, senderId := 1, receiverId := 2, content := "c" }]

/-- Witness for C5 at a concrete input: five interleaved calls from the
empty store; the conversation 1-2 comes back as exactly its three
messages, in order, and the concrete result is also evaluated. -/
theorem C5_getMessages_roundtrip_witness :
    (((getMessages 1 2 (runCreates emptyStore c5Calls)).map
        (fun m => (m.senderId, m.receiverId, m.content, m.timestamp))
      = (c5Calls.filter (callMatches 1 2)).map
        (fun c => (c.senderId, c.receiverId, c.content, c.now))) ∧
    List.Pairwise (fun m1 m2 : Message => m1.id < m2.id)
      (getMessages 1 2 (runCreates emptyStore c5Calls)) ∧
    (List.Pairwise (fun c1 c2 : CreateCall => c1.now ≤ c2.now) c5Calls →
      List.Pairwise (fun m1 m2 : Message => m1.timestamp ≤ m2.timestamp)
        (getMessages 1 2 (runCreates emptyStore c5Calls)))) ∧
    (getMessages 1 2 (runCreates emptyStore c5Calls)).map
        (fun m => (m.senderId, m.receiverId, m.content, m.timestamp))
      = [(1, 2, "a", 10), (2, 1, "b", 12), (1, 2, "c", 14)] :=
  ⟨C5_getMessages_roundtrip 1 2 c5Calls emptyStore rfl, by decide⟩

end ChatApp
